import Mathlib

/-!
Verification of the configuration-resolution engine of `scouty`
(`src/config.rs`).  The resolution pipeline is embedded as pure
functions: the process environment is an explicit partial map, the
dotenv loader and the flag parser become environment transformers, and
the typed resolver (`envy::prefixed("SKIPPER_").from_env::<Config>()`)
becomes a function into `Except ConfigError Config` (a Rust `panic!` on
a resolution error is the `Except.error` case).

Modelling notes, faithful to the source and its dependencies:
* `std::env` is `Env := String → Option String`; `env::set_var`
  overwrites unconditionally.
* `dotenv::from_filename` injects each `KEY=VALUE` pair only when the
  variable is not already set (the dotenv crate checks
  `env::var(key).is_err()` before `set_var`), so an earlier duplicate
  line in the file wins.  The file is modelled as its parsed pairs;
  a missing or unreadable file is `none` and is ignored, and the
  config-path selection logic (flag, `SKIPPER_CONFIG_FILENAME`, `.env`)
  only chooses which file those pairs come from.
* clap: the positional `CHAIN` argument is restricted by
  `possible_values` to westend/kusama/polkadot (anything else exits
  before resolution), hence an `Option Chain`.  The flags
  `error-interval`, `hook-active-next-era-path` and
  `hook-inactive-next-era-path` carry a clap `default_value`, so
  `matches.value_of(..)` returns `Some` for them even when the flag was
  not given on the command line; `get_config` therefore always runs
  their `env::set_var`.  This is mirrored by `Option.getD` below.
* The source defines the flag `disable-matrix-bot-display-name` but has
  no `is_present` block injecting an environment variable for it, and
  the `matrix-user` flag is injected under `SKIPPER_MATRIX_ACCOUNT`
  while the typed resolver reads `SKIPPER_MATRIX_USER`; both are kept
  exactly as in the source.
* envy: a field whose variable is missing takes its serde default when
  one is declared and is a missing-field error otherwise; a present
  value is parsed with `FromStr` (`u64`, `bool`), split on `','` for
  `Vec<String>`, or taken verbatim for `String`.  An unparsable value
  (for example the empty string for `u64` or `bool`) is an error.  envy
  visits the variables in unspecified order, so the theorems below rely
  only on whether resolution succeeds and on the fields of a returned
  record, never on which error value is produced first; the fixed
  field order inside `resolveConfig` is a modelling choice.
-/

namespace Scouty

/-- Process environment: a partial map from variable names to values,
standing for `std::env`. -/
abbrev Env := String → Option String

/-- A parsed dotenv configuration file: its `KEY=VALUE` pairs in file
order. -/
abbrev DotenvFile := List (String × String)

/-- `env::set_var`: unconditionally overwrite one variable. -/
def setVar (e : Env) (key v : String) : Env :=
  fun k => if k = key then some v else e k

/-- An environment with no variables set. -/
def emptyEnv : Env := fun _ => none

/-- First value a dotenv file supplies for a key: since dotenv only
sets variables that are unset, the first duplicate line wins. -/
def lookupFirst (ps : DotenvFile) (k : String) : Option String :=
  match ps with
  | [] => none
  | p :: ps => if p.1 = k then some p.2 else lookupFirst ps k

/-- One pass of the dotenv loader over the file's pairs: each pair is
injected only when its variable is not already set. -/
def dotenvAux (e : Env) : DotenvFile → Env
  | [] => e
  | p :: ps => dotenvAux (if (e p.1).isSome then e else setVar e p.1 p.2) ps

/-- The source-loader step (`dotenv::from_filename(..).ok()`): inject
each pair of the file, in order, only when the variable is not already
set; a missing file (`none`) is silently ignored. -/
def dotenvLoad (e : Env) (file : Option DotenvFile) : Env :=
  match file with
  | none => e
  | some ps => dotenvAux e ps

/-- The closed set of values clap accepts for the positional `CHAIN`
argument (`possible_values(&["westend", "kusama", "polkadot"])`). -/
inductive Chain where
  | westend
  | kusama
  | polkadot
deriving DecidableEq

/-- The well-known endpoint URL injected for each recognised chain
name. -/
def chainUrl : Chain → String
  | .westend => "wss://westend-rpc.polkadot.io"
  | .kusama => "wss://kusama-rpc.polkadot.io"
  | .polkadot => "wss://rpc.polkadot.io"

/-- The command-line surface as parsed by clap.  `Option String` fields
hold the value the user actually passed; for the three flags with a
clap `default_value` the default is applied at the `value_of` call
sites inside `applyFlags`, as clap does. -/
structure CliArgs where
  chain : Option Chain
  debug : Bool
  short : Bool
  disableMatrix : Bool
  disablePublicMatrixRoom : Bool
  disableMatrixBotDisplayName : Bool
  matrixUser : Option String
  matrixBotUser : Option String
  matrixBotPassword : Option String
  errorInterval : Option String
  stashes : Option String
  substrateWsUrl : Option String
  configPath : Option String
  hookNewSessionPath : Option String
  hookActiveNextEraPath : Option String
  hookInactiveNextEraPath : Option String
deriving DecidableEq

/-- One `if let Some(v) = matches.value_of(..) { env::set_var(key, v) }`
block. -/
def setOpt (key : String) (o : Option String) (e : Env) : Env :=
  match o with
  | some v => setVar e key v
  | none => e

/-- One `if matches.is_present(..) { env::set_var(key, "true") }`
block. -/
def setIf (key : String) (b : Bool) (e : Env) : Env :=
  if b then setVar e key "true" else e

/-- The `match matches.value_of("CHAIN")` step: a recognised chain name
injects its well-known URL unconditionally; otherwise the fallback
`ws://127.0.0.1:9944` is injected only when `SKIPPER_SUBSTRATE_WS_URL`
is not already set. -/
def applyChain (e : Env) (c : Option Chain) : Env :=
  match c with
  | some chain => setVar e "SKIPPER_SUBSTRATE_WS_URL" (chainUrl chain)
  | none =>
      if (e "SKIPPER_SUBSTRATE_WS_URL").isSome then e
      else setVar e "SKIPPER_SUBSTRATE_WS_URL" "ws://127.0.0.1:9944"

/-- The flag-injection blocks of `get_config`, in source order
(innermost first).  `error-interval` and the two era hook paths always
run their `set_var` because clap supplies their `default_value` when
the flag is absent.  No block exists for
`disable-matrix-bot-display-name`, and `matrix-user` is injected under
`SKIPPER_MATRIX_ACCOUNT`, exactly as in the source. -/
def applyFlags (e : Env) (a : CliArgs) : Env :=
  setVar
    (setOpt "SKIPPER_MATRIX_BOT_PASSWORD" a.matrixBotPassword
      (setOpt "SKIPPER_MATRIX_BOT_USER" a.matrixBotUser
        (setOpt "SKIPPER_MATRIX_ACCOUNT" a.matrixUser
          (setIf "SKIPPER_MATRIX_PUBLIC_ROOM_DISABLED" a.disablePublicMatrixRoom
            (setIf "SKIPPER_MATRIX_DISABLED" a.disableMatrix
              (setVar
                (setVar
                  (setOpt "SKIPPER_HOOK_NEW_SESSION_PATH" a.hookNewSessionPath
                    (setIf "SKIPPER_IS_SHORT" a.short
                      (setIf "SKIPPER_IS_DEBUG" a.debug
                        (setOpt "SKIPPER_SUBSTRATE_WS_URL" a.substrateWsUrl
                          (setOpt "SKIPPER_STASHES" a.stashes e)))))
                  "SKIPPER_HOOK_ACTIVE_NEXT_ERA_PATH"
                  (a.hookActiveNextEraPath.getD "./hooks/active_next_era.sh"))
                "SKIPPER_HOOK_INACTIVE_NEXT_ERA_PATH"
                (a.hookInactiveNextEraPath.getD "./hooks/inactive_next_era.sh")))))))
    "SKIPPER_ERROR_INTERVAL" (a.errorInterval.getD "30")

/-- The typed configuration record (`struct Config`). -/
structure Config where
  interval : Nat
  error_interval : Nat
  substrate_ws_url : String
  stashes : List String
  is_debug : Bool
  is_short : Bool
  hook_new_session_path : String
  hook_active_next_era_path : String
  hook_inactive_next_era_path : String
  matrix_user : String
  matrix_bot_user : String
  matrix_bot_password : String
  matrix_disabled : Bool
  matrix_bot_display_name_disabled : Bool
deriving DecidableEq

/-- A fatal resolution error of the typed resolver (the `panic!` arm of
`get_config`): a required variable is missing, or a present value does
not parse into the field's type. -/
inductive ConfigError where
  | missingField (key : String)
  | parseError (key : String)
deriving DecidableEq

deriving instance DecidableEq for Except

/-- Value of a digit sequence, `none` on any non-digit character. -/
def digitsVal (cs : List Char) (acc : Nat) : Option Nat :=
  match cs with
  | [] => some acc
  | c :: rest =>
      if c.isDigit then digitsVal rest (acc * 10 + (c.toNat - 48)) else none

/-- Rust `u64::from_str`: an optional leading `+`, then at least one
digit, value below `2^64`; anything else (in particular the empty
string) fails. -/
def parseU64 (s : String) : Option Nat :=
  let cs :=
    match s.data with
    | '+' :: rest => rest
    | cs => cs
  match cs with
  | [] => none
  | _ =>
      match digitsVal cs 0 with
      | some n => if n < 2 ^ 64 then some n else none
      | none => none

/-- Rust `bool::from_str`: exactly `true` or `false`. -/
def parseBool (s : String) : Option Bool :=
  if s = "true" then some true
  else if s = "false" then some false
  else none

/-- A `u64` field with a serde default: the default when the variable
is absent, otherwise its parsed value, a parse failure being fatal. -/
def resolveNatField (e : Env) (key : String) (dflt : Nat) : Except ConfigError Nat :=
  match e key with
  | none => .ok dflt
  | some s =>
      match parseU64 s with
      | some n => .ok n
      | none => .error (.parseError key)

/-- A `bool` field with a serde default. -/
def resolveBoolField (e : Env) (key : String) (dflt : Bool) : Except ConfigError Bool :=
  match e key with
  | none => .ok dflt
  | some s =>
      match parseBool s with
      | some b => .ok b
      | none => .error (.parseError key)

/-- A `String` field with the serde default `""`: never fails. -/
def resolveStringField (e : Env) (key : String) (dflt : String) : String :=
  (e key).getD dflt

/-- A required `String` field: missing is fatal. -/
def resolveRequiredString (e : Env) (key : String) : Except ConfigError String :=
  match e key with
  | none => .error (.missingField key)
  | some s => .ok s

/-- Rust `str::split(',')` on a character list: pieces between commas,
in order, blank pieces kept (`""` gives one blank piece). -/
def splitCommasAux (cs : List Char) (cur : List Char) : List String :=
  match cs with
  | [] => [String.mk cur.reverse]
  | c :: rest =>
      if c = ',' then String.mk cur.reverse :: splitCommasAux rest []
      else splitCommasAux rest (c :: cur)

/-- Rust `str::split(',')` collected into a list of strings. -/
def splitCommas (s : String) : List String :=
  splitCommasAux s.data []

/-- The required `Vec<String>` field: envy splits the value on `','`,
keeping order and blank entries; missing is fatal. -/
def resolveStashes (e : Env) (key : String) : Except ConfigError (List String) :=
  match e key with
  | none => .error (.missingField key)
  | some s => .ok (splitCommas s)

/-- The typed resolver
(`envy::prefixed("SKIPPER_").from_env::<Config>()`): each field from
its `SKIPPER_`-prefixed variable, serde defaults for absent optional
fields, fatal error on a missing required field or an unparsable
value. -/
def resolveConfig (e : Env) : Except ConfigError Config :=
  (resolveNatField e "SKIPPER_INTERVAL" 21600).bind fun interval =>
  (resolveNatField e "SKIPPER_ERROR_INTERVAL" 30).bind fun error_interval =>
  (resolveRequiredString e "SKIPPER_SUBSTRATE_WS_URL").bind fun substrate_ws_url =>
  (resolveStashes e "SKIPPER_STASHES").bind fun stashes =>
  (resolveBoolField e "SKIPPER_IS_DEBUG" false).bind fun is_debug =>
  (resolveBoolField e "SKIPPER_IS_SHORT" false).bind fun is_short =>
  (resolveBoolField e "SKIPPER_MATRIX_DISABLED" false).bind fun matrix_disabled =>
  (resolveBoolField e "SKIPPER_MATRIX_BOT_DISPLAY_NAME_DISABLED" false).bind
    fun matrix_bot_display_name_disabled =>
  Except.ok
    { interval := interval
      error_interval := error_interval
      substrate_ws_url := substrate_ws_url
      stashes := stashes
      is_debug := is_debug
      is_short := is_short
      hook_new_session_path := resolveStringField e "SKIPPER_HOOK_NEW_SESSION_PATH" ""
      hook_active_next_era_path := resolveStringField e "SKIPPER_HOOK_ACTIVE_NEXT_ERA_PATH" ""
      hook_inactive_next_era_path := resolveStringField e "SKIPPER_HOOK_INACTIVE_NEXT_ERA_PATH" ""
      matrix_user := resolveStringField e "SKIPPER_MATRIX_USER" ""
      matrix_bot_user := resolveStringField e "SKIPPER_MATRIX_BOT_USER" ""
      matrix_bot_password := resolveStringField e "SKIPPER_MATRIX_BOT_PASSWORD" ""
      matrix_disabled := matrix_disabled
      matrix_bot_display_name_disabled := matrix_bot_display_name_disabled }

/-- The environment as the typed resolver sees it: initial process
environment, then the dotenv loader, then the chain shortcut, then the
flag injections. -/
def finalEnv (a : CliArgs) (env : Env) (file : Option DotenvFile) : Env :=
  applyFlags (applyChain (dotenvLoad env file) a.chain) a

/-- The whole `get_config` pipeline as a function of the parsed
command line, the initial process environment, and the optional
configuration file. -/
def get_config (a : CliArgs) (env : Env) (file : Option DotenvFile) :
    Except ConfigError Config :=
  resolveConfig (finalEnv a env file)

/-- A command line with nothing passed. -/
def noArgs : CliArgs :=
  { chain := none
    debug := false
    short := false
    disableMatrix := false
    disablePublicMatrixRoom := false
    disableMatrixBotDisplayName := false
    matrixUser := none
    matrixBotUser := none
    matrixBotPassword := none
    errorInterval := none
    stashes := none
    substrateWsUrl := none
    configPath := none
    hookNewSessionPath := none
    hookActiveNextEraPath := none
    hookInactiveNextEraPath := none }

/-- The record resolved from `--stashes s1` alone: every optional field
at its default, the endpoint at the injected fallback. -/
def fallbackStashCfg : Config :=
  { interval := 21600
    error_interval := 30
    substrate_ws_url := "ws://127.0.0.1:9944"
    stashes := ["s1"]
    is_debug := false
    is_short := false
    hook_new_session_path := ""
    hook_active_next_era_path := "./hooks/active_next_era.sh"
    hook_inactive_next_era_path := "./hooks/inactive_next_era.sh"
    matrix_user := ""
    matrix_bot_user := ""
    matrix_bot_password := ""
    matrix_disabled := false
    matrix_bot_display_name_disabled := false }

/-- A command line passing only `--stashes s1`. -/
def stashOnlyArgs : CliArgs := { noArgs with stashes := some "s1" }

/-- A command line passing only the positional chain name `kusama`. -/
def kusamaArgs : CliArgs := { noArgs with chain := some Chain.kusama }

/-- A command line passing `kusama` and `--stashes s1`. -/
def kusamaStashArgs : CliArgs :=
  { noArgs with chain := some Chain.kusama, stashes := some "s1" }

/-- A command line passing a chain name and an explicit endpoint flag. -/
def bothEndpointArgs : CliArgs :=
  { noArgs with
      chain := some Chain.westend
      substrateWsUrl := some "wss://example.org"
      stashes := some "s1" }

/-- A command line passing `--disable-matrix-bot-display-name` (plus the
stashes needed for resolution to succeed). -/
def displayNameArgs : CliArgs :=
  { noArgs with disableMatrixBotDisplayName := true, stashes := some "s1" }

/-- A command line passing `--error-interval 42` and `--stashes s1`. -/
def errFlagArgs : CliArgs :=
  { noArgs with errorInterval := some "42", stashes := some "s1" }

/-- A command line passing `--hook-new-session-path` and `--stashes`. -/
def hookFlagArgs : CliArgs :=
  { noArgs with hookNewSessionPath := some "./from_flag.sh", stashes := some "s1" }

/-- A command line passing `--stashes stash_1,stash_2`. -/
def splitArgs : CliArgs := { noArgs with stashes := some "stash_1,stash_2" }

/-- An environment carrying only `SKIPPER_STASHES=stash_1`. -/
def stashEnv : Env :=
  fun k => if k = "SKIPPER_STASHES" then some "stash_1" else none

/-- An environment with `SKIPPER_INTERVAL` present but empty (and the
stashes required for the rest of resolution). -/
def emptyIntervalEnv : Env :=
  fun k =>
    if k = "SKIPPER_INTERVAL" then some ""
    else if k = "SKIPPER_STASHES" then some "s1" else none

/-- An environment with `SKIPPER_HOOK_NEW_SESSION_PATH` present but
empty (and the stashes required for the rest of resolution). -/
def emptyHookPathEnv : Env :=
  fun k =>
    if k = "SKIPPER_HOOK_NEW_SESSION_PATH" then some ""
    else if k = "SKIPPER_STASHES" then some "s1" else none

/-- A configuration file supplying an error interval (and stashes). -/
def errorIntervalFile : DotenvFile :=
  [("SKIPPER_ERROR_INTERVAL", "99"), ("SKIPPER_STASHES", "s1")]

/-- A configuration file supplying a polling interval (and stashes). -/
def intervalFile : DotenvFile :=
  [("SKIPPER_INTERVAL", "77"), ("SKIPPER_STASHES", "s1")]

/-- A configuration file supplying a new-session hook path (and
stashes). -/
def hookFile : DotenvFile :=
  [("SKIPPER_HOOK_NEW_SESSION_PATH", "./from_file.sh"), ("SKIPPER_STASHES", "s1")]

lemma bind_ok {α β : Type} {x : Except ConfigError α} {f : α → Except ConfigError β}
    {b : β} (h : x.bind f = .ok b) : ∃ a, x = .ok a ∧ f a = .ok b := by
  cases x with
  | error e => simp [Except.bind] at h
  | ok a => exact ⟨a, rfl, by simpa [Except.bind] using h⟩

lemma bind_error {α β : Type} {x : Except ConfigError α} {f : α → Except ConfigError β}
    {err : ConfigError} (h : x.bind f = .error err) :
    x = .error err ∨ ∃ a, x = .ok a ∧ f a = .error err := by
  cases x with
  | error e => left; simpa [Except.bind] using h
  | ok a => right; exact ⟨a, rfl, by simpa [Except.bind] using h⟩

lemma setVar_self (e : Env) (key v : String) : setVar e key v key = some v := by
  simp [setVar]

lemma setVar_other (e : Env) (key v k : String) (h : k ≠ key) :
    setVar e key v k = e k := by
  simp [setVar, h]

lemma setOpt_other (key : String) (o : Option String) (e : Env) (k : String)
    (h : k ≠ key) : setOpt key o e k = e k := by
  cases o <;> simp [setOpt, setVar_other, h]

lemma setIf_other (key : String) (b : Bool) (e : Env) (k : String)
    (h : k ≠ key) : setIf key b e k = e k := by
  cases b <;> simp [setIf, setVar_other, h]

lemma applyChain_other (e : Env) (c : Option Chain) (k : String)
    (h : k ≠ "SKIPPER_SUBSTRATE_WS_URL") : applyChain e c k = e k := by
  cases c with
  | none =>
      unfold applyChain
      split
      · rfl
      · exact setVar_other _ _ _ _ h
  | some chain => exact setVar_other _ _ _ _ h

/-- After the chain step the endpoint variable is always set. -/
lemma applyChain_wsurl_isSome (e : Env) (c : Option Chain) :
    (applyChain e c "SKIPPER_SUBSTRATE_WS_URL").isSome = true := by
  cases c with
  | none =>
      unfold applyChain
      split
      · assumption
      · simp [setVar_self]
  | some chain => simp [applyChain, setVar_self]

/-- Looking up a key in the environment after the dotenv pass: a value
already set wins; otherwise the file's first pair for the key. -/
lemma dotenvAux_lookup (ps : DotenvFile) (e : Env) (k : String) :
    dotenvAux e ps k = if (e k).isSome then e k else lookupFirst ps k := by
  induction ps generalizing e with
  | nil =>
      show e k = _
      cases he : e k <;> simp [he, lookupFirst]
  | cons p ps ih =>
      show dotenvAux (if (e p.1).isSome then e else setVar e p.1 p.2) ps k = _
      rw [ih]
      by_cases hpk : p.1 = k
      · subst hpk
        cases hp : e p.1 with
        | some v => simp [hp, lookupFirst]
        | none => simp [hp, lookupFirst, setVar_self]
      · cases hp : e p.1 with
        | some v => simp [hp, lookupFirst, hpk]
        | none =>
            simp [hp, lookupFirst, hpk, setVar_other e p.1 p.2 k (fun hk => hpk hk.symm)]

lemma dotenvLoad_lookup (env : Env) (ps : DotenvFile) (k : String) :
    dotenvLoad env (some ps) k =
      if (env k).isSome then env k else lookupFirst ps k :=
  dotenvAux_lookup ps env k

lemma setOpt_none (key : String) (e : Env) : setOpt key none e = e := rfl

lemma setIf_false (key : String) (e : Env) : setIf key false e = e := rfl

lemma setOpt_some_self (key v : String) (e : Env) :
    setOpt key (some v) e key = some v :=
  setVar_self e key v

/-- No flag writes `SKIPPER_INTERVAL`, so the resolver sees exactly
what the loader produced for it. -/
lemma finalEnv_interval (a : CliArgs) (env : Env) (file : Option DotenvFile) :
    finalEnv a env file "SKIPPER_INTERVAL" = dotenvLoad env file "SKIPPER_INTERVAL" := by
  simp [finalEnv, applyFlags, setVar_other, setOpt_other, setIf_other, applyChain_other]

/-- The `error-interval` block always runs (`clap` supplies the default
value `"30"` when the flag is absent), so the resolver always sees the
flag value or `"30"`. -/
lemma finalEnv_error_interval (a : CliArgs) (env : Env) (file : Option DotenvFile) :
    finalEnv a env file "SKIPPER_ERROR_INTERVAL" = some (a.errorInterval.getD "30") := by
  simp [finalEnv, applyFlags, setVar_self]

/-- Likewise for `hook-active-next-era-path`. -/
lemma finalEnv_hook_active (a : CliArgs) (env : Env) (file : Option DotenvFile) :
    finalEnv a env file "SKIPPER_HOOK_ACTIVE_NEXT_ERA_PATH" =
      some (a.hookActiveNextEraPath.getD "./hooks/active_next_era.sh") := by
  simp [finalEnv, applyFlags, setVar_self, setVar_other, setOpt_other, setIf_other]

/-- Likewise for `hook-inactive-next-era-path`. -/
lemma finalEnv_hook_inactive (a : CliArgs) (env : Env) (file : Option DotenvFile) :
    finalEnv a env file "SKIPPER_HOOK_INACTIVE_NEXT_ERA_PATH" =
      some (a.hookInactiveNextEraPath.getD "./hooks/inactive_next_era.sh") := by
  simp [finalEnv, applyFlags, setVar_self, setVar_other, setOpt_other, setIf_other]

lemma finalEnv_stashes_none (a : CliArgs) (env : Env) (file : Option DotenvFile)
    (h : a.stashes = none) :
    finalEnv a env file "SKIPPER_STASHES" = dotenvLoad env file "SKIPPER_STASHES" := by
  simp [finalEnv, applyFlags, h, setOpt_none, setVar_other, setOpt_other, setIf_other,
    applyChain_other]

lemma finalEnv_stashes_flag (a : CliArgs) (env : Env) (file : Option DotenvFile)
    (v : String) (h : a.stashes = some v) :
    finalEnv a env file "SKIPPER_STASHES" = some v := by
  simp [finalEnv, applyFlags, h, setOpt_some_self, setVar_other, setOpt_other, setIf_other]

/-- An explicit `--substrate-ws-url` value is what the resolver sees:
its injection runs after the chain shortcut. -/
lemma finalEnv_wsurl_flag (a : CliArgs) (env : Env) (file : Option DotenvFile)
    (u : String) (h : a.substrateWsUrl = some u) :
    finalEnv a env file "SKIPPER_SUBSTRATE_WS_URL" = some u := by
  simp [finalEnv, applyFlags, h, setOpt_some_self, setVar_other, setOpt_other, setIf_other]

/-- Without the endpoint flag, a recognised chain name decides the
endpoint variable. -/
lemma finalEnv_wsurl_chain (a : CliArgs) (env : Env) (file : Option DotenvFile)
    (c : Chain) (hw : a.substrateWsUrl = none) (hc : a.chain = some c) :
    finalEnv a env file "SKIPPER_SUBSTRATE_WS_URL" = some (chainUrl c) := by
  simp [finalEnv, applyFlags, hw, hc, setOpt_none, setVar_other, setOpt_other, setIf_other,
    applyChain, setVar_self]

/-- Without the endpoint flag, a chain name, or a loader-visible value,
the fallback endpoint is what the resolver sees. -/
lemma finalEnv_wsurl_fallback (a : CliArgs) (env : Env) (file : Option DotenvFile)
    (hw : a.substrateWsUrl = none) (hc : a.chain = none)
    (hm : dotenvLoad env file "SKIPPER_SUBSTRATE_WS_URL" = none) :
    finalEnv a env file "SKIPPER_SUBSTRATE_WS_URL" = some "ws://127.0.0.1:9944" := by
  simp [finalEnv, applyFlags, hw, hc, setOpt_none, setVar_other, setOpt_other, setIf_other,
    applyChain, hm, setVar_self]

/-- The endpoint variable is always set by the time the typed resolver
runs: the chain step either keeps an existing value or injects one, and
later steps only overwrite it with a present flag value. -/
lemma finalEnv_wsurl_isSome (a : CliArgs) (env : Env) (file : Option DotenvFile) :
    (finalEnv a env file "SKIPPER_SUBSTRATE_WS_URL").isSome = true := by
  cases hw : a.substrateWsUrl with
  | some u => simp [finalEnv_wsurl_flag a env file u hw]
  | none =>
      have : finalEnv a env file "SKIPPER_SUBSTRATE_WS_URL" =
          applyChain (dotenvLoad env file) a.chain "SKIPPER_SUBSTRATE_WS_URL" := by
        simp [finalEnv, applyFlags, hw, setOpt_none, setVar_other, setOpt_other, setIf_other]
      rw [this]
      exact applyChain_wsurl_isSome _ _

lemma finalEnv_is_debug (a : CliArgs) (env : Env) (file : Option DotenvFile)
    (h : a.debug = false) :
    finalEnv a env file "SKIPPER_IS_DEBUG" = dotenvLoad env file "SKIPPER_IS_DEBUG" := by
  simp [finalEnv, applyFlags, h, setIf_false, setVar_other, setOpt_other, setIf_other,
    applyChain_other]

lemma finalEnv_hook_new (a : CliArgs) (env : Env) (file : Option DotenvFile)
    (h : a.hookNewSessionPath = none) :
    finalEnv a env file "SKIPPER_HOOK_NEW_SESSION_PATH" =
      dotenvLoad env file "SKIPPER_HOOK_NEW_SESSION_PATH" := by
  simp [finalEnv, applyFlags, h, setOpt_none, setVar_other, setOpt_other, setIf_other,
    applyChain_other]

lemma finalEnv_hook_new_flag (a : CliArgs) (env : Env) (file : Option DotenvFile)
    (v : String) (h : a.hookNewSessionPath = some v) :
    finalEnv a env file "SKIPPER_HOOK_NEW_SESSION_PATH" = some v := by
  simp [finalEnv, applyFlags, h, setOpt_some_self, setVar_other, setOpt_other, setIf_other]

/-- No flag-injection block exists for
`disable-matrix-bot-display-name`: the resolver always sees whatever
the loader produced for `SKIPPER_MATRIX_BOT_DISPLAY_NAME_DISABLED`. -/
lemma finalEnv_display_name (a : CliArgs) (env : Env) (file : Option DotenvFile) :
    finalEnv a env file "SKIPPER_MATRIX_BOT_DISPLAY_NAME_DISABLED" =
      dotenvLoad env file "SKIPPER_MATRIX_BOT_DISPLAY_NAME_DISABLED" := by
  simp [finalEnv, applyFlags, setVar_other, setOpt_other, setIf_other, applyChain_other]

/-- Destructuring a successful run of the typed resolver: each field of
the returned record is exactly what its per-field resolver produced. -/
lemma resolveConfig_ok_elim (e : Env) (cfg : Config)
    (h : resolveConfig e = .ok cfg) :
    resolveNatField e "SKIPPER_INTERVAL" 21600 = .ok cfg.interval ∧
    resolveNatField e "SKIPPER_ERROR_INTERVAL" 30 = .ok cfg.error_interval ∧
    resolveRequiredString e "SKIPPER_SUBSTRATE_WS_URL" = .ok cfg.substrate_ws_url ∧
    resolveStashes e "SKIPPER_STASHES" = .ok cfg.stashes ∧
    resolveBoolField e "SKIPPER_IS_DEBUG" false = .ok cfg.is_debug ∧
    resolveBoolField e "SKIPPER_IS_SHORT" false = .ok cfg.is_short ∧
    resolveBoolField e "SKIPPER_MATRIX_DISABLED" false = .ok cfg.matrix_disabled ∧
    resolveBoolField e "SKIPPER_MATRIX_BOT_DISPLAY_NAME_DISABLED" false =
      .ok cfg.matrix_bot_display_name_disabled ∧
    cfg.hook_new_session_path = resolveStringField e "SKIPPER_HOOK_NEW_SESSION_PATH" "" ∧
    cfg.hook_active_next_era_path =
      resolveStringField e "SKIPPER_HOOK_ACTIVE_NEXT_ERA_PATH" "" ∧
    cfg.hook_inactive_next_era_path =
      resolveStringField e "SKIPPER_HOOK_INACTIVE_NEXT_ERA_PATH" "" ∧
    cfg.matrix_user = resolveStringField e "SKIPPER_MATRIX_USER" "" ∧
    cfg.matrix_bot_user = resolveStringField e "SKIPPER_MATRIX_BOT_USER" "" ∧
    cfg.matrix_bot_password = resolveStringField e "SKIPPER_MATRIX_BOT_PASSWORD" "" := by
  unfold resolveConfig at h
  obtain ⟨i, hi, h⟩ := bind_ok h
  obtain ⟨ei, hei, h⟩ := bind_ok h
  obtain ⟨u, hu, h⟩ := bind_ok h
  obtain ⟨st, hst, h⟩ := bind_ok h
  obtain ⟨d, hd, h⟩ := bind_ok h
  obtain ⟨sh, hsh, h⟩ := bind_ok h
  obtain ⟨md, hmd, h⟩ := bind_ok h
  obtain ⟨mbd, hmbd, h⟩ := bind_ok h
  have hcfg : cfg = _ := (Except.ok.injEq _ _ ▸ h).symm
  subst hcfg
  exact ⟨hi, hei, hu, hst, hd, hsh, hmd, hmbd, rfl, rfl, rfl, rfl, rfl, rfl⟩

lemma resolveNatField_error_shape {e : Env} {key : String} {d : Nat}
    {err : ConfigError} (h : resolveNatField e key d = .error err) :
    err = .parseError key := by
  unfold resolveNatField at h
  split at h
  · cases h
  · split at h
    · cases h
    · exact (Except.error.inj h).symm

lemma resolveBoolField_error_shape {e : Env} {key : String} {d : Bool}
    {err : ConfigError} (h : resolveBoolField e key d = .error err) :
    err = .parseError key := by
  unfold resolveBoolField at h
  split at h
  · cases h
  · split at h
    · cases h
    · exact (Except.error.inj h).symm

lemma resolveRequiredString_error_shape {e : Env} {key : String}
    {err : ConfigError} (h : resolveRequiredString e key = .error err) :
    e key = none ∧ err = .missingField key := by
  unfold resolveRequiredString at h
  rcases hk : e key with _ | s <;> rw [hk] at h
  · cases h; exact ⟨rfl, rfl⟩
  · cases h

lemma resolveStashes_error_shape {e : Env} {key : String}
    {err : ConfigError} (h : resolveStashes e key = .error err) :
    err = .missingField key := by
  unfold resolveStashes at h
  rcases hk : e key with _ | s <;> rw [hk] at h
  · cases h; rfl
  · cases h

/-- `get_config` can never fail for lack of an endpoint: the chain step
guarantees `SKIPPER_SUBSTRATE_WS_URL` is set before the typed resolver
runs, and no other field produces that error value. -/
lemma get_config_no_missing_wsurl (a : CliArgs) (env : Env) (file : Option DotenvFile) :
    get_config a env file ≠ .error (.missingField "SKIPPER_SUBSTRATE_WS_URL") := by
  intro h
  unfold get_config resolveConfig at h
  rcases bind_error h with h1 | ⟨i, hi, h⟩
  · simpa using resolveNatField_error_shape h1
  rcases bind_error h with h2 | ⟨ei, hei, h⟩
  · simpa using resolveNatField_error_shape h2
  rcases bind_error h with h3 | ⟨u, hu, h⟩
  · obtain ⟨hnone, _⟩ := resolveRequiredString_error_shape h3
    have := finalEnv_wsurl_isSome a env file
    rw [hnone] at this
    cases this
  rcases bind_error h with h4 | ⟨st, hst, h⟩
  · simpa using resolveStashes_error_shape h4
  rcases bind_error h with h5 | ⟨d, hd, h⟩
  · simpa using resolveBoolField_error_shape h5
  rcases bind_error h with h6 | ⟨sh, hsh, h⟩
  · simpa using resolveBoolField_error_shape h6
  rcases bind_error h with h7 | ⟨md, hmd, h⟩
  · simpa using resolveBoolField_error_shape h7
  rcases bind_error h with h8 | ⟨mbd, hmbd, h⟩
  · simpa using resolveBoolField_error_shape h8
  cases h

lemma resolveNatField_of_none {e : Env} {key : String} {d : Nat}
    (hs : e key = none) : resolveNatField e key d = .ok d := by
  unfold resolveNatField
  rw [hs]

lemma resolveNatField_of_parse {e : Env} {key : String} {d : Nat} {s : String}
    {n : Nat} (hs : e key = some s) (hp : parseU64 s = some n) :
    resolveNatField e key d = .ok n := by
  unfold resolveNatField
  simp [hs, hp]

lemma resolveNatField_of_noparse {e : Env} {key : String} {d : Nat} {s : String}
    (hs : e key = some s) (hp : parseU64 s = none) :
    resolveNatField e key d = .error (.parseError key) := by
  unfold resolveNatField
  simp [hs, hp]

lemma resolveBoolField_of_none {e : Env} {key : String} {d : Bool}
    (hs : e key = none) : resolveBoolField e key d = .ok d := by
  unfold resolveBoolField
  rw [hs]

lemma resolveRequiredString_of_some {e : Env} {key s : String}
    (hs : e key = some s) : resolveRequiredString e key = .ok s := by
  unfold resolveRequiredString
  rw [hs]

lemma resolveStashes_of_some {e : Env} {key s : String}
    (hs : e key = some s) : resolveStashes e key = .ok (splitCommas s) := by
  unfold resolveStashes
  rw [hs]

lemma resolveStashes_of_none {e : Env} {key : String}
    (hs : e key = none) : resolveStashes e key = .error (.missingField key) := by
  unfold resolveStashes
  rw [hs]

lemma resolveStringField_of_some {e : Env} {key s d : String}
    (hs : e key = some s) : resolveStringField e key d = s := by
  unfold resolveStringField
  rw [hs]
  rfl

lemma resolveStringField_of_none {e : Env} {key d : String}
    (hs : e key = none) : resolveStringField e key d = d := by
  unfold resolveStringField
  rw [hs]
  rfl

/-- C1, counterexample: with no chain argument, no endpoint flag, an
empty environment and no file — the endpoint unresolvable by any
layer — but stashes supplied, `get_config` produces a record (with the
injected fallback endpoint) instead of failing. -/
theorem C1_counterexample :
    get_config stashOnlyArgs emptyEnv none = Except.ok fallbackStashCfg := by
  decide

/-- C1, amended: when the endpoint URL is not supplied by any layer,
`get_config` does not fail with a missing-endpoint error; it injects
the fallback `ws://127.0.0.1:9944`, and any record it resolves carries
that fallback endpoint. -/
theorem C1_amended (a : CliArgs) (env : Env) (file : Option DotenvFile)
    (hc : a.chain = none) (hw : a.substrateWsUrl = none)
    (hm : dotenvLoad env file "SKIPPER_SUBSTRATE_WS_URL" = none) :
    get_config a env file ≠ .error (.missingField "SKIPPER_SUBSTRATE_WS_URL") ∧
      ∀ cfg : Config, get_config a env file = .ok cfg →
        cfg.substrate_ws_url = "ws://127.0.0.1:9944" := by
  refine ⟨get_config_no_missing_wsurl a env file, ?_⟩
  intro cfg h
  unfold get_config at h
  obtain ⟨-, -, hu, -⟩ := resolveConfig_ok_elim _ _ h
  rw [resolveRequiredString_of_some (finalEnv_wsurl_fallback a env file hw hc hm)] at hu
  exact (Except.ok.inj hu).symm

/-- C1, witness for the amended claim at the concrete endpoint-free
input. -/
theorem C1_witness :
    get_config stashOnlyArgs emptyEnv none ≠
        .error (.missingField "SKIPPER_SUBSTRATE_WS_URL") ∧
      fallbackStashCfg.substrate_ws_url = "ws://127.0.0.1:9944" :=
  ⟨(C1_amended stashOnlyArgs emptyEnv none rfl rfl rfl).1,
   (C1_amended stashOnlyArgs emptyEnv none rfl rfl rfl).2 fallbackStashCfg (by decide)⟩

/-- C2, counterexample: the configuration file supplies
`SKIPPER_ERROR_INTERVAL=99` and no `--error-interval` flag is passed,
yet the resolved record's error interval is the compiled-in default 30,
not the file's 99: the absent flag still injects clap's default value,
clobbering the file. -/
theorem C2_counterexample :
    get_config noArgs emptyEnv (some errorIntervalFile) = Except.ok fallbackStashCfg ∧
      fallbackStashCfg.error_interval ≠ 99 :=
  ⟨by decide, by decide⟩

/-- C2, amended: a flag-supplied value wins over file and default for
every wired field; a file-supplied value wins over the compiled-in
default for fields whose flag carries no clap default (polling
interval, new-session hook path); but for `error-interval` and the two
era hook paths an absent flag injects clap's built-in default, which
overrides any file-supplied value, so the file's value never reaches
the record for those three fields. -/
theorem C2_amended :
    (∀ (a : CliArgs) (env : Env) (file : Option DotenvFile) (v : String) (n : Nat)
        (cfg : Config), a.errorInterval = some v → parseU64 v = some n →
        get_config a env file = .ok cfg → cfg.error_interval = n) ∧
    (∀ (a : CliArgs) (env : Env) (ps : DotenvFile) (s : String) (n : Nat)
        (cfg : Config), env "SKIPPER_INTERVAL" = none →
        lookupFirst ps "SKIPPER_INTERVAL" = some s → parseU64 s = some n →
        get_config a env (some ps) = .ok cfg → cfg.interval = n) ∧
    (∀ (a : CliArgs) (env : Env) (ps : DotenvFile) (s : String) (cfg : Config),
        a.hookNewSessionPath = none → env "SKIPPER_HOOK_NEW_SESSION_PATH" = none →
        lookupFirst ps "SKIPPER_HOOK_NEW_SESSION_PATH" = some s →
        get_config a env (some ps) = .ok cfg → cfg.hook_new_session_path = s) ∧
    (∀ (a : CliArgs) (env : Env) (file : Option DotenvFile) (v : String)
        (cfg : Config), a.hookNewSessionPath = some v →
        get_config a env file = .ok cfg → cfg.hook_new_session_path = v) ∧
    (∀ (a : CliArgs) (env : Env) (file : Option DotenvFile) (cfg : Config),
        a.errorInterval = none → get_config a env file = .ok cfg →
        cfg.error_interval = 30) ∧
    (∀ (a : CliArgs) (env : Env) (file : Option DotenvFile) (cfg : Config),
        a.hookActiveNextEraPath = none → get_config a env file = .ok cfg →
        cfg.hook_active_next_era_path = "./hooks/active_next_era.sh") ∧
    (∀ (a : CliArgs) (env : Env) (file : Option DotenvFile) (cfg : Config),
        a.hookInactiveNextEraPath = none → get_config a env file = .ok cfg →
        cfg.hook_inactive_next_era_path = "./hooks/inactive_next_era.sh") := by
  refine ⟨?_, ?_, ?_, ?_, ?_, ?_, ?_⟩
  · intro a env file v n cfg hv hp h
    unfold get_config at h
    obtain ⟨-, hei, -⟩ := resolveConfig_ok_elim _ _ h
    have hfe := finalEnv_error_interval a env file
    rw [hv] at hfe
    rw [resolveNatField_of_parse hfe hp] at hei
    exact (Except.ok.inj hei).symm
  · intro a env ps s n cfg henv hlook hp h
    unfold get_config at h
    obtain ⟨hint, -⟩ := resolveConfig_ok_elim _ _ h
    have hm : dotenvLoad env (some ps) "SKIPPER_INTERVAL" = some s := by
      rw [dotenvLoad_lookup]
      simp [henv, hlook]
    rw [resolveNatField_of_parse ((finalEnv_interval a env (some ps)).trans hm) hp] at hint
    exact (Except.ok.inj hint).symm
  · intro a env ps s cfg hflag henv hlook h
    unfold get_config at h
    obtain ⟨-, -, -, -, -, -, -, -, hhn, -⟩ := resolveConfig_ok_elim _ _ h
    have hm : dotenvLoad env (some ps) "SKIPPER_HOOK_NEW_SESSION_PATH" = some s := by
      rw [dotenvLoad_lookup]
      simp [henv, hlook]
    rw [hhn, resolveStringField_of_some ((finalEnv_hook_new a env (some ps) hflag).trans hm)]
  · intro a env file v cfg hflag h
    unfold get_config at h
    obtain ⟨-, -, -, -, -, -, -, -, hhn, -⟩ := resolveConfig_ok_elim _ _ h
    rw [hhn, resolveStringField_of_some (finalEnv_hook_new_flag a env file v hflag)]
  · intro a env file cfg hflag h
    unfold get_config at h
    obtain ⟨-, hei, -⟩ := resolveConfig_ok_elim _ _ h
    have hfe := finalEnv_error_interval a env file
    rw [hflag, Option.getD_none] at hfe
    have hp : parseU64 "30" = some 30 := by decide
    rw [resolveNatField_of_parse hfe hp] at hei
    exact (Except.ok.inj hei).symm
  · intro a env file cfg hflag h
    unfold get_config at h
    obtain ⟨-, -, -, -, -, -, -, -, -, hha, -⟩ := resolveConfig_ok_elim _ _ h
    have hfe := finalEnv_hook_active a env file
    rw [hflag, Option.getD_none] at hfe
    rw [hha, resolveStringField_of_some hfe]
  · intro a env file cfg hflag h
    unfold get_config at h
    obtain ⟨-, -, -, -, -, -, -, -, -, -, hhi, -⟩ := resolveConfig_ok_elim _ _ h
    have hfe := finalEnv_hook_inactive a env file
    rw [hflag, Option.getD_none] at hfe
    rw [hhi, resolveStringField_of_some hfe]

/-- C2, witness: every part of the amended precedence law exercised at
a concrete input. -/
theorem C2_witness :
    ({ fallbackStashCfg with error_interval := 42 } : Config).error_interval = 42 ∧
    ({ fallbackStashCfg with interval := 77 } : Config).interval = 77 ∧
    ({ fallbackStashCfg with hook_new_session_path := "./from_file.sh" } :
        Config).hook_new_session_path = "./from_file.sh" ∧
    ({ fallbackStashCfg with hook_new_session_path := "./from_flag.sh" } :
        Config).hook_new_session_path = "./from_flag.sh" ∧
    fallbackStashCfg.error_interval = 30 ∧
    fallbackStashCfg.hook_active_next_era_path = "./hooks/active_next_era.sh" ∧
    fallbackStashCfg.hook_inactive_next_era_path = "./hooks/inactive_next_era.sh" :=
  ⟨C2_amended.1 errFlagArgs emptyEnv none "42" 42 _ rfl (by decide) (by decide),
   C2_amended.2.1 noArgs emptyEnv intervalFile "77" 77 _ rfl (by decide) (by decide)
     (by decide),
   C2_amended.2.2.1 noArgs emptyEnv hookFile "./from_file.sh" _ rfl rfl (by decide)
     (by decide),
   C2_amended.2.2.2.1 hookFlagArgs emptyEnv none "./from_flag.sh" _ rfl (by decide),
   C2_amended.2.2.2.2.1 stashOnlyArgs emptyEnv none _ rfl (by decide),
   C2_amended.2.2.2.2.2.1 stashOnlyArgs emptyEnv none _ rfl (by decide),
   C2_amended.2.2.2.2.2.2 stashOnlyArgs emptyEnv none _ rfl (by decide)⟩

/-- C4, counterexample: the spec's kusama scenario (no flags, no file,
no environment variables, positional `kusama`) does not resolve
successfully — the required watched-identities field is unresolvable,
so resolution fails. -/
theorem C4_counterexample :
    (get_config kusamaArgs emptyEnv none).isOk = false := by
  decide

/-- C4, amended: the kusama scenario fails fatally because watched
identities are required and unsupplied; with `SKIPPER_STASHES=stash_1`
additionally in the environment, it resolves to the Kusama RPC URL
constant, polling interval 21600, error-retry interval 30, watched
identities `[stash_1]`, debug false. -/
theorem C4_amended :
    (get_config kusamaArgs emptyEnv none).isOk = false ∧
      get_config kusamaArgs stashEnv none =
        Except.ok
          { interval := 21600
            error_interval := 30
            substrate_ws_url := "wss://kusama-rpc.polkadot.io"
            stashes := ["stash_1"]
            is_debug := false
            is_short := false
            hook_new_session_path := ""
            hook_active_next_era_path := "./hooks/active_next_era.sh"
            hook_inactive_next_era_path := "./hooks/inactive_next_era.sh"
            matrix_user := ""
            matrix_bot_user := ""
            matrix_bot_password := ""
            matrix_disabled := false
            matrix_bot_display_name_disabled := false } :=
  ⟨by decide, by decide⟩

/-- C5: a recognised chain name without `--substrate-ws-url` resolves
to that chain's well-known URL; with the explicit flag, the flag's URL
wins. -/
theorem C5_theorem :
    (∀ (a : CliArgs) (env : Env) (file : Option DotenvFile) (c : Chain)
        (cfg : Config), a.substrateWsUrl = none → a.chain = some c →
        get_config a env file = .ok cfg → cfg.substrate_ws_url = chainUrl c) ∧
    (∀ (a : CliArgs) (env : Env) (file : Option DotenvFile) (u : String)
        (cfg : Config), a.substrateWsUrl = some u →
        get_config a env file = .ok cfg → cfg.substrate_ws_url = u) := by
  constructor
  · intro a env file c cfg hw hc h
    unfold get_config at h
    obtain ⟨-, -, hu, -⟩ := resolveConfig_ok_elim _ _ h
    rw [resolveRequiredString_of_some (finalEnv_wsurl_chain a env file c hw hc)] at hu
    exact (Except.ok.inj hu).symm
  · intro a env file u cfg hw h
    unfold get_config at h
    obtain ⟨-, -, hu, -⟩ := resolveConfig_ok_elim _ _ h
    rw [resolveRequiredString_of_some (finalEnv_wsurl_flag a env file u hw)] at hu
    exact (Except.ok.inj hu).symm

/-- C5, witness: `kusama` alone yields the Kusama URL; `westend` plus
an explicit `--substrate-ws-url wss://example.org` yields the flag's
URL. -/
theorem C5_witness :
    ({ fallbackStashCfg with substrate_ws_url := "wss://kusama-rpc.polkadot.io" } :
        Config).substrate_ws_url = chainUrl Chain.kusama ∧
      ({ fallbackStashCfg with substrate_ws_url := "wss://example.org" } :
          Config).substrate_ws_url = "wss://example.org" :=
  ⟨C5_theorem.1 kusamaStashArgs emptyEnv none Chain.kusama _ rfl rfl (by decide),
   C5_theorem.2 bothEndpointArgs emptyEnv none "wss://example.org" _ rfl (by decide)⟩

/-- C6: passing `--disable-matrix-bot-display-name` leaves the resolved
record's `matrix_bot_display_name_disabled` at false — the flag is
defined but `get_config` has no injection block for it, so it has no
effect at all on resolution. -/
theorem C6_theorem :
    (∀ (a : CliArgs) (env : Env) (file : Option DotenvFile),
        get_config { a with disableMatrixBotDisplayName := true } env file =
          get_config { a with disableMatrixBotDisplayName := false } env file) ∧
      get_config displayNameArgs emptyEnv none = Except.ok fallbackStashCfg ∧
      fallbackStashCfg.matrix_bot_display_name_disabled = false :=
  ⟨fun _ _ _ => rfl, by decide, by decide⟩

/-- C7: when the watched-identities field is supplied by no layer — no
`--stashes` flag and no environment or file value — resolution fails
and returns no record. -/
theorem C7_theorem (a : CliArgs) (env : Env) (file : Option DotenvFile)
    (hflag : a.stashes = none)
    (hm : dotenvLoad env file "SKIPPER_STASHES" = none) :
    (get_config a env file).isOk = false := by
  cases hg : get_config a env file with
  | error e => rfl
  | ok cfg =>
      exfalso
      unfold get_config at hg
      obtain ⟨-, -, -, hst, -⟩ := resolveConfig_ok_elim _ _ hg
      rw [resolveStashes_of_none
        ((finalEnv_stashes_none a env file hflag).trans hm)] at hst
      cases hst

/-- C7, witness: with nothing supplied at all, resolution fails. -/
theorem C7_witness : (get_config noArgs emptyEnv none).isOk = false :=
  C7_theorem noArgs emptyEnv none rfl rfl

/-- C8, counterexample: `SKIPPER_INTERVAL` present but empty (with
required fields resolvable) does not yield the default 21600 — the
empty string fails to parse as an unsigned integer and resolution
fails. -/
theorem C8_counterexample :
    (get_config noArgs emptyIntervalEnv none).isOk = false := by
  decide

/-- C8, amended: defaults are supplied when a field's variable is
absent; when a variable is present but empty, string-typed fields
resolve to the empty string (which coincides with their default), but
integer-typed fields fail to parse and resolution fails fatally. -/
theorem C8_amended :
    (∀ (a : CliArgs) (env : Env) (file : Option DotenvFile) (cfg : Config),
        dotenvLoad env file "SKIPPER_INTERVAL" = none →
        get_config a env file = .ok cfg → cfg.interval = 21600) ∧
    (∀ (a : CliArgs) (env : Env) (file : Option DotenvFile) (cfg : Config),
        a.debug = false → dotenvLoad env file "SKIPPER_IS_DEBUG" = none →
        get_config a env file = .ok cfg → cfg.is_debug = false) ∧
    (∀ (a : CliArgs) (env : Env) (file : Option DotenvFile) (cfg : Config),
        a.hookNewSessionPath = none →
        dotenvLoad env file "SKIPPER_HOOK_NEW_SESSION_PATH" = none →
        get_config a env file = .ok cfg → cfg.hook_new_session_path = "") ∧
    (∀ (a : CliArgs) (env : Env) (file : Option DotenvFile),
        dotenvLoad env file "SKIPPER_INTERVAL" = some "" →
        (get_config a env file).isOk = false) ∧
    (∀ (a : CliArgs) (env : Env) (file : Option DotenvFile) (cfg : Config),
        a.hookNewSessionPath = none →
        dotenvLoad env file "SKIPPER_HOOK_NEW_SESSION_PATH" = some "" →
        get_config a env file = .ok cfg → cfg.hook_new_session_path = "") := by
  refine ⟨?_, ?_, ?_, ?_, ?_⟩
  · intro a env file cfg hm h
    unfold get_config at h
    obtain ⟨hint, -⟩ := resolveConfig_ok_elim _ _ h
    rw [resolveNatField_of_none ((finalEnv_interval a env file).trans hm)] at hint
    exact (Except.ok.inj hint).symm
  · intro a env file cfg hflag hm h
    unfold get_config at h
    obtain ⟨-, -, -, -, hdbg, -⟩ := resolveConfig_ok_elim _ _ h
    rw [resolveBoolField_of_none
      ((finalEnv_is_debug a env file hflag).trans hm)] at hdbg
    exact (Except.ok.inj hdbg).symm
  · intro a env file cfg hflag hm h
    unfold get_config at h
    obtain ⟨-, -, -, -, -, -, -, -, hhn, -⟩ := resolveConfig_ok_elim _ _ h
    rw [hhn, resolveStringField_of_none ((finalEnv_hook_new a env file hflag).trans hm)]
  · intro a env file hm
    cases hg : get_config a env file with
    | error e => rfl
    | ok cfg =>
        exfalso
        unfold get_config at hg
        obtain ⟨hint, -⟩ := resolveConfig_ok_elim _ _ hg
        rw [resolveNatField_of_noparse ((finalEnv_interval a env file).trans hm)
          (by decide)] at hint
        cases hint
  · intro a env file cfg hflag hm h
    unfold get_config at h
    obtain ⟨-, -, -, -, -, -, -, -, hhn, -⟩ := resolveConfig_ok_elim _ _ h
    rw [hhn, resolveStringField_of_some ((finalEnv_hook_new a env file hflag).trans hm)]

/-- C8, witness: every part of the amended defaulting law at a concrete
input. -/
theorem C8_witness :
    fallbackStashCfg.interval = 21600 ∧
    fallbackStashCfg.is_debug = false ∧
    fallbackStashCfg.hook_new_session_path = "" ∧
    (get_config noArgs emptyIntervalEnv none).isOk = false ∧
    fallbackStashCfg.hook_new_session_path = "" :=
  ⟨C8_amended.1 stashOnlyArgs emptyEnv none _ rfl (by decide),
   C8_amended.2.1 stashOnlyArgs emptyEnv none _ rfl rfl (by decide),
   C8_amended.2.2.1 stashOnlyArgs emptyEnv none _ rfl rfl (by decide),
   C8_amended.2.2.2.1 noArgs emptyIntervalEnv none (by decide),
   C8_amended.2.2.2.2 noArgs emptyHookPathEnv none _ rfl (by decide) (by decide)⟩

/-- C9: `--stashes stash_1,stash_2` yields exactly the ordered list
`["stash_1", "stash_2"]` in any record that resolution returns. -/
theorem C9_theorem (a : CliArgs) (env : Env) (file : Option DotenvFile)
    (cfg : Config) (hflag : a.stashes = some "stash_1,stash_2")
    (h : get_config a env file = .ok cfg) :
    cfg.stashes = ["stash_1", "stash_2"] := by
  unfold get_config at h
  obtain ⟨-, -, -, hst, -⟩ := resolveConfig_ok_elim _ _ h
  rw [resolveStashes_of_some (finalEnv_stashes_flag a env file _ hflag)] at hst
  have hsplit : splitCommas "stash_1,stash_2" = ["stash_1", "stash_2"] := by decide
  rw [hsplit] at hst
  exact (Except.ok.inj hst).symm

/-- C9, witness: the flag alone (endpoint resolvable via the fallback)
yields the two-element ordered list. -/
theorem C9_witness :
    ({ fallbackStashCfg with stashes := ["stash_1", "stash_2"] } : Config).stashes =
      ["stash_1", "stash_2"] :=
  C9_theorem splitArgs emptyEnv none _ rfl (by decide)

/-- C10: when the chain argument is absent and the endpoint variable is
unset after the loader, the chain step injects the fallback
`ws://127.0.0.1:9944` before typed resolution; `get_config` never fails
with a missing-endpoint error; and without the endpoint flag the
resolved record carries the (non-empty) fallback endpoint. -/
theorem C10_theorem :
    (∀ (env : Env) (file : Option DotenvFile),
        dotenvLoad env file "SKIPPER_SUBSTRATE_WS_URL" = none →
        applyChain (dotenvLoad env file) none "SKIPPER_SUBSTRATE_WS_URL" =
          some "ws://127.0.0.1:9944") ∧
    (∀ (a : CliArgs) (env : Env) (file : Option DotenvFile),
        get_config a env file ≠ .error (.missingField "SKIPPER_SUBSTRATE_WS_URL")) ∧
    (∀ (a : CliArgs) (env : Env) (file : Option DotenvFile) (cfg : Config),
        a.chain = none → a.substrateWsUrl = none →
        dotenvLoad env file "SKIPPER_SUBSTRATE_WS_URL" = none →
        get_config a env file = .ok cfg →
        cfg.substrate_ws_url = "ws://127.0.0.1:9944" ∧ cfg.substrate_ws_url ≠ "") := by
  refine ⟨?_, get_config_no_missing_wsurl, ?_⟩
  · intro env file hm
    simp [applyChain, hm, setVar_self]
  · intro a env file cfg hc hw hm h
    unfold get_config at h
    obtain ⟨-, -, hu, -⟩ := resolveConfig_ok_elim _ _ h
    rw [resolveRequiredString_of_some (finalEnv_wsurl_fallback a env file hw hc hm)] at hu
    have heq := (Except.ok.inj hu).symm
    exact ⟨heq, by rw [heq]; decide⟩

/-- C10, witness: the fallback injection and the resulting record at
the concrete endpoint-free input. -/
theorem C10_witness :
    applyChain (dotenvLoad emptyEnv none) none "SKIPPER_SUBSTRATE_WS_URL" =
        some "ws://127.0.0.1:9944" ∧
      get_config noArgs emptyEnv none ≠
        .error (.missingField "SKIPPER_SUBSTRATE_WS_URL") ∧
      fallbackStashCfg.substrate_ws_url = "ws://127.0.0.1:9944" ∧
      fallbackStashCfg.substrate_ws_url ≠ "" :=
  ⟨C10_theorem.1 emptyEnv none rfl,
   C10_theorem.2.1 noArgs emptyEnv none,
   (C10_theorem.2.2 stashOnlyArgs emptyEnv none fallbackStashCfg rfl rfl rfl
     (by decide)).1,
   (C10_theorem.2.2 stashOnlyArgs emptyEnv none fallbackStashCfg rfl rfl rfl
     (by decide)).2⟩

end Scouty
